import Mathlib

/-!
Shallow embedding of `src/main.py` (Kubernetes Cluster Monitor mock API).

Modelling conventions:
* Python floats are modelled as `ℚ`; Python ints as `ℤ` or `ℕ`.
* Every call to the `random` module is replaced by an explicit draw passed
  in through an oracle structure; hypotheses on a draw state exactly the
  range the corresponding `random` primitive guarantees
  (`random.uniform a b ∈ [a, b]`, `random.randint a b ∈ [a, b]`,
  `random.random () ∈ [0, 1)`).
* `datetime` instants are modelled as `ℚ` (seconds); `timedelta` becomes
  subtraction of the corresponding number of seconds.  Calendar rendering
  (`strftime`, `isoformat`) is abstracted to a numeric rendering of the
  model instant — no claim depends on the concrete date format, and the
  `time_range` fields are kept as model instants.
* Python's `round(x, 2)` is modelled as rounding to the nearest multiple
  of `1/100` (`round2`); no claim depends on the tie-breaking direction.
* `list.sort` / `sorted` (Timsort, a stable merge sort) is modelled by
  `List.mergeSort`, which is also a stable merge sort.
-/

/-- Catalog: the fixed service names (`SERVICES`, main.py lines 11-18). -/
def SERVICES : List String :=
  ["auth-service",
   "user-service",
   "payment-service",
   "notification-service",
   "analytics-service",
   "api-gateway"]

/-- Catalog: log levels (main.py line 21). -/
def LOG_LEVELS : List String := ["INFO", "DEBUG", "WARN", "ERROR"]

/-- Catalog: log level weights (main.py line 22). -/
def LOG_LEVEL_WEIGHTS : List ℚ := [3/5, 1/4, 1/10, 1/20]

/-- Catalog: log message templates (main.py lines 25-41).  The Python
placeholder `\x7b\x7d` is kept literally (written with escapes). -/
def LOG_MESSAGES : List String :=
  ["Request processed successfully",
   "Database connection established",
   "Cache hit for key: \x7b\x7d",
   "Processing batch job",
   "HTTP request received: GET /api/v1/\x7b\x7d",
   "Response sent with status code: \x7b\x7d",
   "Authentication successful for user: \x7b\x7d",
   "Rate limit check passed",
   "Circuit breaker closed",
   "Health check completed",
   "Memory usage: \x7b\x7d MB",
   "Connection timeout, retrying...",
   "Invalid request parameter: \x7b\x7d",
   "Service discovery updated",
   "Background task scheduled"]

/-- Catalog: commit type tags (main.py line 44). -/
def COMMIT_TYPES : List String :=
  ["feat", "fix", "refactor", "perf", "docs", "test", "chore"]

/-- Catalog: commit message phrases (main.py lines 45-76). -/
def COMMIT_MESSAGES : List String :=
  ["add authentication middleware",
   "fix memory leak in connection pool",
   "update dependencies to latest versions",
   "optimize database query performance",
   "implement rate limiting",
   "add unit tests for API endpoints",
   "refactor error handling logic",
   "improve logging format",
   "fix race condition in cache invalidation",
   "add health check endpoint",
   "update API documentation",
   "implement circuit breaker pattern",
   "optimize memory usage",
   "fix null pointer exception",
   "add integration tests",
   "refactor service discovery logic",
   "improve error messages",
   "add metrics collection",
   "fix timeout handling",
   "implement retry mechanism",
   "update configuration management",
   "add request validation",
   "optimize response time",
   "fix connection leak",
   "add monitoring dashboards",
   "refactor database access layer",
   "implement graceful shutdown",
   "add feature flags support",
   "fix concurrent access issues",
   "improve security headers"]

/-- Catalog: developer names (main.py lines 79-88). -/
def DEVELOPERS : List String :=
  ["alice.chen",
   "bob.smith",
   "carol.jones",
   "david.kim",
   "emma.wilson",
   "frank.garcia",
   "grace.lee",
   "henry.brown"]

/-- Python's `round(x, 2)`: round to the nearest multiple of 1/100. -/
def round2 (x : ℚ) : ℚ := (round (100 * x) : ℤ) / 100

/-- The `ServiceMetrics` pydantic model (main.py lines 91-99). -/
structure ServiceMetrics where
  service_name : String
  cpu_usage_percent : ℚ
  memory_mb : ℤ
  p99_latency_ms : ℚ
  request_rate_per_sec : ℚ
  error_rate_percent : ℚ
  memory_leak_score : ℚ
  anomaly_detected : Bool
  deriving Repr, DecidableEq

/-- The random draws consumed by one call of `generate_service_metrics`,
in source order (main.py lines 149-160). -/
structure MetricsDraws where
  cpuDraw : ℚ        -- random.uniform 5 95
  memDraw : ℤ        -- random.randint 128 2048
  p99Draw : ℚ        -- random.uniform 10 500
  rateDraw : ℚ       -- random.uniform 10 1000
  errDraw : ℚ        -- random.uniform 0 5
  leakTrigger : ℚ    -- random.random (), in [0, 1)
  leakHighDraw : ℚ   -- random.uniform 60 95
  leakLowDraw : ℚ    -- random.uniform 0 40

/-- `generate_service_metrics` (main.py lines 146-179). -/
def generate_service_metrics (service : String) (d : MetricsDraws) : ServiceMetrics :=
  let cpu_usage := round2 d.cpuDraw
  let memory_mb := d.memDraw
  let p99_latency := round2 d.p99Draw
  let request_rate := round2 d.rateDraw
  let error_rate := round2 d.errDraw
  let memory_leak_score :=
    if d.leakTrigger < 1/5 then round2 d.leakHighDraw else round2 d.leakLowDraw
  let anomaly_detected :=
    decide (cpu_usage > 85 ∨ p99_latency > 400 ∨ error_rate > 3 ∨ memory_leak_score > 70)
  { service_name := service
    cpu_usage_percent := cpu_usage
    memory_mb := memory_mb
    p99_latency_ms := p99_latency
    request_rate_per_sec := request_rate
    error_rate_percent := error_rate
    memory_leak_score := memory_leak_score
    anomaly_detected := anomaly_detected }

lemma round2_le_int {x : ℚ} {m : ℤ} (h : x ≤ (m : ℚ)) : round2 x ≤ (m : ℚ) := by
  unfold round2
  have hfl : round (100 * x) ≤ 100 * m := by
    rw [round_eq]
    have h1 : (100 * x + 1 / 2 : ℚ) ≤ ((100 * m : ℤ) : ℚ) + 1 / 2 := by
      push_cast
      linarith
    calc ⌊(100 * x + 1 / 2 : ℚ)⌋ ≤ ⌊((100 * m : ℤ) : ℚ) + 1 / 2⌋ := Int.floor_le_floor h1
      _ = 100 * m + ⌊(1 / 2 : ℚ)⌋ := Int.floor_int_add _ _
      _ = 100 * m := by norm_num
  have hc : ((round (100 * x) : ℤ) : ℚ) ≤ ((100 * m : ℤ) : ℚ) := by exact_mod_cast hfl
  calc ((round (100 * x) : ℤ) : ℚ) / 100 ≤ ((100 * m : ℤ) : ℚ) / 100 := by gcongr
    _ = (m : ℚ) := by push_cast; ring

lemma int_le_round2 {x : ℚ} {m : ℤ} (h : (m : ℚ) ≤ x) : (m : ℚ) ≤ round2 x := by
  unfold round2
  have hfl : 100 * m ≤ round (100 * x) := by
    rw [round_eq]
    have h1 : ((100 * m : ℤ) : ℚ) + 1 / 2 ≤ (100 * x + 1 / 2 : ℚ) := by
      push_cast
      linarith
    calc (100 * m : ℤ) = 100 * m + ⌊(1 / 2 : ℚ)⌋ := by norm_num
      _ = ⌊((100 * m : ℤ) : ℚ) + 1 / 2⌋ := (Int.floor_int_add _ _).symm
      _ ≤ ⌊(100 * x + 1 / 2 : ℚ)⌋ := Int.floor_le_floor h1
  have hc : ((100 * m : ℤ) : ℚ) ≤ ((round (100 * x) : ℤ) : ℚ) := by exact_mod_cast hfl
  calc (m : ℚ) = ((100 * m : ℤ) : ℚ) / 100 := by push_cast; ring
    _ ≤ ((round (100 * x) : ℤ) : ℚ) / 100 := by gcongr

/-- Abstraction of `timestamp.strftime("%Y-%m-%d %H:%M:%S.%f")[:-3]`
(main.py line 142): calendar rendering of a model instant is abstracted
to a numeric rendering.  No claim depends on the concrete date format. -/
def strftime_ms (t : ℚ) : String := toString t

/-- Abstraction of `timestamp.strftime("%Y-%m-%d %H:%M:%S")` (main.py
line 197), abstracted in the same way as `strftime_ms`. -/
def strftime_s (t : ℚ) : String := toString t

/-- The random draws consumed by one call of `generate_log_line`
(main.py lines 127-143). -/
structure LogLineDraws where
  levelU : ℚ       -- random.random-style draw driving random.choices
  msgIdx : ℕ       -- random.choice over LOG_MESSAGES
  replIdx : ℕ      -- random.choice over the replacements list
  userDraw : ℤ     -- random.randint 1000 9999
  statusDraw : ℤ   -- random.randint 200 500
  resDraw : ℤ      -- random.randint 1 100
  memDraw : ℤ      -- random.randint 64 512

/-- Semantics of `random.choices(items, weights=ws)[0]`: with `u` the
uniform draw scaled by the weight total, return the first item whose
cumulative weight exceeds `u`; the last item catches any remainder. -/
def weightedChoice : List String → List ℚ → ℚ → String
  | [], _, _ => ""
  | [x], _, _ => x
  | x :: _ :: _, [], _ => x
  | x :: y :: xs, w :: ws, u => if u < w then x else weightedChoice (y :: xs) ws (u - w)

/-- `generate_log_line` (main.py lines 127-143).  Python's
`message.format(r)` on a template with a single `\x7b\x7d` placeholder is
modelled by `String.replace` (every template holds at most one). -/
def generate_log_line (service : String) (timestamp : ℚ) (d : LogLineDraws) : String :=
  let level := weightedChoice LOG_LEVELS LOG_LEVEL_WEIGHTS d.levelU
  let message := LOG_MESSAGES.getD d.msgIdx ""
  let replacements : List String :=
    ["user_" ++ toString d.userDraw,
     toString d.statusDraw,
     "resource_" ++ toString d.resDraw,
     toString d.memDraw]
  let message :=
    if (message.splitOn "\x7b\x7d").length ≥ 2 then
      message.replace "\x7b\x7d" (replacements.getD d.replIdx "")
    else message
  let timestamp_str := strftime_ms timestamp
  timestamp_str ++ " [" ++ level ++ "] [" ++ service ++ "] " ++ message

/-- The `Commit` pydantic model (main.py lines 108-116). -/
structure Commit where
  commit_hash : String
  author : String
  date : String
  message : String
  service : String
  files_changed : ℤ
  insertions : ℤ
  deletions : ℤ
  deriving Repr, DecidableEq

/-- The hex alphabet `'0123456789abcdef'` used for commit hashes
(main.py line 184). -/
def HEX_ALPHABET : List Char := "0123456789abcdef".toList

/-- The random draws consumed by one call of `generate_commit`
(main.py lines 182-203). -/
structure CommitDraws where
  hashDraw : ℕ → ℕ     -- random.choices over the hex alphabet: index of char i
  authorIdx : ℕ        -- random.choice over DEVELOPERS
  typeIdx : ℕ          -- random.choice over COMMIT_TYPES
  msgIdx : ℕ           -- random.choice over COMMIT_MESSAGES
  filesDraw : ℤ        -- random.randint 1 15
  insertionsDraw : ℤ   -- random.randint 5 200
  deletionsDraw : ℤ    -- random.randint 1 100

/-- `generate_commit` (main.py lines 182-203). -/
def generate_commit (service : String) (timestamp : ℚ) (d : CommitDraws) : Commit :=
  let commit_hash := String.mk ((List.range 7).map (fun i => HEX_ALPHABET.getD (d.hashDraw i) '0'))
  let author := DEVELOPERS.getD d.authorIdx ""
  let commit_type := COMMIT_TYPES.getD d.typeIdx ""
  let message := COMMIT_MESSAGES.getD d.msgIdx ""
  let full_message := commit_type ++ ": " ++ message
  { commit_hash := commit_hash
    author := author
    date := strftime_s timestamp
    message := full_message
    service := service
    files_changed := d.filesDraw
    insertions := d.insertionsDraw
    deletions := d.deletionsDraw }

/-- `format_commit` (main.py lines 206-218), the f-string concatenation
written out literally. -/
def format_commit (c : Commit) : String :=
  "commit " ++ c.commit_hash ++ "\n" ++
  "Author: " ++ c.author ++ "\n" ++
  "Date:   " ++ c.date ++ "\n" ++
  "Service: " ++ c.service ++ "\n" ++
  "\n" ++
  "    " ++ c.message ++ "\n" ++
  "\n" ++
  "    " ++ toString c.files_changed ++ " files changed, " ++
  toString c.insertions ++ " insertions(+), " ++ toString c.deletions ++ " deletions(-)\n"

/-- `throw_error` (main.py lines 220-222): sleeps 3 seconds, then returns
the status-500 body.  Modelled as (seconds slept, body). -/
def throw_error : ℚ × ℕ := (3, 500)

/-- The observable outcome of one call of the root endpoint: total seconds
slept during the call, and the status value of the returned body. -/
structure RootResult where
  delay : ℚ
  status : ℕ
  deriving Repr, DecidableEq

/-- `read_root` (main.py lines 224-235):
`random.choice([{"status": 200}, throw_error()])`.  Python evaluates the
list display eagerly, so `throw_error()` — and its 3-second sleep — runs
while the argument list is built, before `random.choice` picks either
element.  `pick` is the index chosen by `random.choice` (0 or 1,
uniformly).  `delay` accumulates every sleep performed during the call. -/
def read_root (pick : Fin 2) : RootResult :=
  let success : ℚ × ℕ := (0, 200)
  let failure : ℚ × ℕ := throw_error
  let listDelay : ℚ := success.1 + failure.1
  let chosen := if pick = 0 then success else failure
  { delay := listDelay, status := chosen.2 }

/-- The per-service record count used by both `/logs` (main.py lines
256-260) and `/commit_history` (main.py lines 309-313):
`n // len(SERVICES)` plus one extra for the first `n % len(SERVICES)`
services in catalog order. -/
def perServiceCount (n idx : ℕ) : ℕ :=
  n / SERVICES.length + (if idx < n % SERVICES.length then 1 else 0)

/-- The oracle feeding `/logs`: `tsDraw idx i` is the
`random.uniform(0, 3600)` draw and `lineDraw idx i` the draws of
`generate_log_line`, for record `i` of service index `idx`. -/
structure LogsOracle where
  tsDraw : ℕ → ℕ → ℚ
  lineDraw : ℕ → ℕ → LogLineDraws

/-- The response of `GET /logs` (main.py lines 278-288), with the
`time_range` instants kept as model instants. -/
structure LogsResponse where
  cluster_name : String
  total_services : ℕ
  services : List String
  log_count : ℕ
  time_range_start : ℚ
  time_range_end : ℚ
  logs : String

/-- The `(timestamp, line)` pairs accumulated by the generation loops of
`get_logs` (main.py lines 249-270), in generation order. -/
def logsPairs (num_logs : ℕ) (o : LogsOracle) (now : ℚ) : List (ℚ × String) :=
  let start_time := now - 3600
  SERVICES.enum.flatMap (fun p =>
    (List.range (perServiceCount num_logs p.1)).map (fun i =>
      let timestamp := start_time + o.tsDraw p.1 i
      (timestamp, generate_log_line p.2 timestamp (o.lineDraw p.1 i))))

/-- The log list after `logs.sort(key=lambda x: x["timestamp"])`
(main.py line 273). -/
def sortedLogs (num_logs : ℕ) (o : LogsOracle) (now : ℚ) : List (ℚ × String) :=
  (logsPairs num_logs o now).mergeSort (fun a b => decide (a.1 ≤ b.1))

/-- `get_logs` (main.py lines 238-288), after validation has accepted
`num_logs`.  `now` is `datetime.now()`. -/
def get_logs (num_logs : ℕ) (o : LogsOracle) (now : ℚ) : LogsResponse :=
  let end_time := now
  let start_time := end_time - 3600
  let log_lines := (sortedLogs num_logs o now).map Prod.snd
  { cluster_name := "production-cluster-01"
    total_services := SERVICES.length
    services := SERVICES
    log_count := log_lines.length
    time_range_start := start_time
    time_range_end := end_time
    logs := String.intercalate "\n" log_lines }

/-- The oracle feeding `/commit_history`: `tsDraw idx i` is the
`random.uniform(0, 30*24*3600)` draw and `commitDraw idx i` the draws of
`generate_commit`, for commit `i` of service index `idx`. -/
structure CommitsOracle where
  tsDraw : ℕ → ℕ → ℚ
  commitDraw : ℕ → ℕ → CommitDraws

/-- The `CommitHistoryResponse` pydantic model (main.py lines 119-124),
with the `time_range` instants kept as model instants. -/
structure CommitHistoryResponse where
  cluster_name : String
  total_commits : ℕ
  services : List String
  time_range_start : ℚ
  time_range_end : ℚ
  commits : String

/-- The `(timestamp, commit)` pairs accumulated by the generation loops of
`get_commit_history` (main.py lines 302-323), in generation order. -/
def commitsPairs (num_commits : ℕ) (o : CommitsOracle) (now : ℚ) : List (ℚ × Commit) :=
  let start_time := now - 30 * 24 * 3600
  SERVICES.enum.flatMap (fun p =>
    (List.range (perServiceCount num_commits p.1)).map (fun i =>
      let timestamp := start_time + o.tsDraw p.1 i
      (timestamp, generate_commit p.2 timestamp (o.commitDraw p.1 i))))

/-- The commit list after
`commits.sort(key=lambda x: x["timestamp"], reverse=True)`
(main.py line 326): a stable sort descending by timestamp. -/
def sortedCommits (num_commits : ℕ) (o : CommitsOracle) (now : ℚ) : List (ℚ × Commit) :=
  (commitsPairs num_commits o now).mergeSort (fun a b => decide (b.1 ≤ a.1))

/-- `get_commit_history` (main.py lines 291-340), after validation has
accepted `num_commits`.  `now` is `datetime.now()`. -/
def get_commit_history (num_commits : ℕ) (o : CommitsOracle) (now : ℚ) : CommitHistoryResponse :=
  let end_time := now
  let start_time := end_time - 30 * 24 * 3600
  let sorted := sortedCommits num_commits o now
  let commit_lines := sorted.map (fun p => format_commit p.2)
  { cluster_name := "production-cluster-01"
    total_commits := sorted.length
    services := SERVICES
    time_range_start := start_time
    time_range_end := end_time
    commits := String.intercalate "\n" commit_lines }

/-- The `MetricsResponse` pydantic model (main.py lines 102-105), with
the `timestamp` kept as the model instant of `datetime.now()`. -/
structure MetricsResponse where
  timestamp : ℚ
  cluster_name : String
  services : List ServiceMetrics

/-- `get_metrics` (main.py lines 343-357): one `generate_service_metrics`
per catalog service, in catalog order; `o idx` holds the draws of the
call made for service index `idx`. -/
def get_metrics (now : ℚ) (o : ℕ → MetricsDraws) : MetricsResponse :=
  { timestamp := now
    cluster_name := "production-cluster-01"
    services := SERVICES.enum.map (fun p => generate_service_metrics p.2 (o p.1)) }

/-- Models FastAPI's handling of the declaration
`Query(default=100, ge=1, le=10000)` on `/logs` (main.py line 239): a
missing parameter takes the default, an in-range value reaches the
handler body, an out-of-range value is rejected with a 422 validation
error before the handler body runs. -/
def logs_endpoint (num_logs : Option ℤ) (o : LogsOracle) (now : ℚ) : Except ℕ LogsResponse :=
  let n := num_logs.getD 100
  if 1 ≤ n ∧ n ≤ 10000 then Except.ok (get_logs n.toNat o now) else Except.error 422

/-- Models FastAPI's handling of the declaration
`Query(default=50, ge=1, le=1000)` on `/commit_history` (main.py line
292), in the same way as `logs_endpoint`. -/
def commit_history_endpoint (num_commits : Option ℤ) (o : CommitsOracle) (now : ℚ) :
    Except ℕ CommitHistoryResponse :=
  let n := num_commits.getD 50
  if 1 ≤ n ∧ n ≤ 1000 then Except.ok (get_commit_history n.toNat o now) else Except.error 422

/-- The range constraints on `ServiceMetrics` claimed for `/metrics`
output: the bimodal leak-score range and the cpu range. -/
def inBimodalRange (m : ServiceMetrics) : Prop :=
  ((0 ≤ m.memory_leak_score ∧ m.memory_leak_score ≤ 40) ∨
    (60 ≤ m.memory_leak_score ∧ m.memory_leak_score ≤ 95)) ∧
  ¬(40 < m.memory_leak_score ∧ m.memory_leak_score < 60) ∧
  (5 ≤ m.cpu_usage_percent ∧ m.cpu_usage_percent ≤ 95)

/-- The even-split property claimed for the per-service record counts of
`/logs` and `/commit_history`. -/
def splitSpec (n : ℕ) : Prop :=
  (∀ idx < SERVICES.length,
      perServiceCount n idx = n / SERVICES.length ∨
      perServiceCount n idx = n / SERVICES.length + 1) ∧
  (∀ idx < SERVICES.length,
      (perServiceCount n idx = n / SERVICES.length + 1 ↔ idx < n % SERVICES.length)) ∧
  ((List.range SERVICES.length).map (perServiceCount n)).sum = n

lemma SERVICES_length : SERVICES.length = 6 := rfl

lemma perServiceCount_sum (n : ℕ) :
    ((List.range SERVICES.length).map (perServiceCount n)).sum = n := by
  have hr : List.range SERVICES.length = [0, 1, 2, 3, 4, 5] := rfl
  rw [hr]
  simp only [perServiceCount, List.map_cons, List.map_nil, List.sum_cons, List.sum_nil,
    SERVICES_length]
  have h6 : n % 6 < 6 := Nat.mod_lt n (by norm_num)
  split_ifs <;> omega

/-- C1: every `ServiceMetrics` produced by the metrics generator has
`anomaly_detected` true iff `cpu_usage_percent > 85` or
`p99_latency_ms > 400` or `error_rate_percent > 3` or
`memory_leak_score > 70`, recomputed from the numeric fields of the
same record. -/
theorem anomaly_detected_iff_thresholds (service : String) (d : MetricsDraws) :
    (generate_service_metrics service d).anomaly_detected = true ↔
      ((generate_service_metrics service d).cpu_usage_percent > 85 ∨
       (generate_service_metrics service d).p99_latency_ms > 400 ∨
       (generate_service_metrics service d).error_rate_percent > 3 ∨
       (generate_service_metrics service d).memory_leak_score > 70) := by
  simp [generate_service_metrics]

/-- C2, evaluated at the failing input: when `random.choice` picks the
first list element, the call returns the status-200 body and has still
slept 3 seconds, because `throw_error()` is evaluated while the list
passed to `random.choice` is built.  This refutes the claim that the
~3-second delay happens only on calls returning the status-500 body. -/
theorem read_root_delay_on_success :
    (read_root 0).status = 200 ∧ (read_root 0).delay = 3 := by
  constructor
  · rfl
  · show (0 : ℚ) + 3 = 3
    norm_num

/-- C3: for every valid `num_logs` (and hence every valid `num_commits`,
whose range is a subset), each of the 6 services receives `n / 6` or
`n / 6 + 1` records, exactly the first `n % 6` services in catalog order
receive the extra record, and the counts sum to `n`. -/
theorem perServiceCount_split_spec (n : ℕ) (h1 : 1 ≤ n) (h2 : n ≤ 10000) :
    splitSpec n := by
  refine ⟨?_, ?_, perServiceCount_sum n⟩
  · intro idx _
    unfold perServiceCount
    simp only [SERVICES_length]
    split_ifs <;> omega
  · intro idx _
    unfold perServiceCount
    simp only [SERVICES_length]
    split_ifs with h <;> omega

/-- C3 witness at `n = 7`. -/
theorem perServiceCount_split_spec_witness : 1 ≤ 7 ∧ 7 ≤ 10000 ∧ splitSpec 7 :=
  ⟨by norm_num, by norm_num, perServiceCount_split_spec 7 (by norm_num) (by norm_num)⟩

/-- C5: with the draws in the ranges the `random` primitives guarantee,
the leak score lies in `[0,40] ∪ [60,95]` (never in the open gap
`(40,60)`) and the cpu usage lies in `[5,95]`. -/
theorem metrics_ranges_bimodal (service : String) (d : MetricsDraws)
    (hc1 : 5 ≤ d.cpuDraw) (hc2 : d.cpuDraw ≤ 95)
    (hh1 : 60 ≤ d.leakHighDraw) (hh2 : d.leakHighDraw ≤ 95)
    (hl1 : 0 ≤ d.leakLowDraw) (hl2 : d.leakLowDraw ≤ 40) :
    inBimodalRange (generate_service_metrics service d) := by
  have hcpu1 : (5 : ℚ) ≤ round2 d.cpuDraw := by
    have := int_le_round2 (m := 5) (x := d.cpuDraw) (by exact_mod_cast hc1)
    exact_mod_cast this
  have hcpu2 : round2 d.cpuDraw ≤ (95 : ℚ) := by
    have := round2_le_int (m := 95) (x := d.cpuDraw) (by exact_mod_cast hc2)
    exact_mod_cast this
  have hhi1 : (60 : ℚ) ≤ round2 d.leakHighDraw := by
    have := int_le_round2 (m := 60) (x := d.leakHighDraw) (by exact_mod_cast hh1)
    exact_mod_cast this
  have hhi2 : round2 d.leakHighDraw ≤ (95 : ℚ) := by
    have := round2_le_int (m := 95) (x := d.leakHighDraw) (by exact_mod_cast hh2)
    exact_mod_cast this
  have hlo1 : (0 : ℚ) ≤ round2 d.leakLowDraw := by
    have := int_le_round2 (m := 0) (x := d.leakLowDraw) (by exact_mod_cast hl1)
    exact_mod_cast this
  have hlo2 : round2 d.leakLowDraw ≤ (40 : ℚ) := by
    have := round2_le_int (m := 40) (x := d.leakLowDraw) (by exact_mod_cast hl2)
    exact_mod_cast this
  unfold inBimodalRange generate_service_metrics
  simp only
  split_ifs with h
  · exact ⟨Or.inr ⟨hhi1, hhi2⟩, by rintro ⟨ha, hb⟩; linarith, hcpu1, hcpu2⟩
  · exact ⟨Or.inl ⟨hlo1, hlo2⟩, by rintro ⟨ha, hb⟩; linarith, hcpu1, hcpu2⟩

/-- A concrete draw record for witnesses. -/
def metricsDraws0 : MetricsDraws :=
  { cpuDraw := 50, memDraw := 512, p99Draw := 100, rateDraw := 100,
    errDraw := 1, leakTrigger := 0, leakHighDraw := 80, leakLowDraw := 10 }

/-- C5 witness at a concrete draw record. -/
theorem metrics_ranges_bimodal_witness :
    (5 ≤ metricsDraws0.cpuDraw ∧ metricsDraws0.cpuDraw ≤ 95 ∧
     60 ≤ metricsDraws0.leakHighDraw ∧ metricsDraws0.leakHighDraw ≤ 95 ∧
     0 ≤ metricsDraws0.leakLowDraw ∧ metricsDraws0.leakLowDraw ≤ 40) ∧
    inBimodalRange (generate_service_metrics "auth-service" metricsDraws0) :=
  ⟨⟨by norm_num [metricsDraws0], by norm_num [metricsDraws0], by norm_num [metricsDraws0],
    by norm_num [metricsDraws0], by norm_num [metricsDraws0], by norm_num [metricsDraws0]⟩,
   metrics_ranges_bimodal "auth-service" metricsDraws0
     (by norm_num [metricsDraws0]) (by norm_num [metricsDraws0]) (by norm_num [metricsDraws0])
     (by norm_num [metricsDraws0]) (by norm_num [metricsDraws0]) (by norm_num [metricsDraws0])⟩

/-- C7: `/metrics` returns exactly one `ServiceMetrics` per catalog
service, in catalog order (hence 6 entries, no duplicates, no
omissions), together with the fixed cluster name and the current
timestamp. -/
theorem get_metrics_catalog_exact (now : ℚ) (o : ℕ → MetricsDraws) :
    (get_metrics now o).services.map ServiceMetrics.service_name = SERVICES ∧
    (get_metrics now o).services.length = 6 ∧
    SERVICES.Nodup ∧
    (get_metrics now o).cluster_name = "production-cluster-01" ∧
    (get_metrics now o).timestamp = now := by
  have he : SERVICES.enum =
      [(0, "auth-service"), (1, "user-service"), (2, "payment-service"),
       (3, "notification-service"), (4, "analytics-service"), (5, "api-gateway")] := rfl
  refine ⟨?_, ?_, by decide, rfl, rfl⟩
  · simp only [get_metrics]
    rw [he]
    simp [generate_service_metrics, SERVICES]
  · simp only [get_metrics]
    rw [he]
    simp

lemma SERVICES_enum : SERVICES.enum =
    [(0, "auth-service"), (1, "user-service"), (2, "payment-service"),
     (3, "notification-service"), (4, "analytics-service"), (5, "api-gateway")] := rfl

lemma logsPairs_length (n : ℕ) (o : LogsOracle) (now : ℚ) :
    (logsPairs n o now).length = n := by
  have hs := perServiceCount_sum n
  rw [show List.range SERVICES.length = [0, 1, 2, 3, 4, 5] from rfl] at hs
  simp only [List.map_cons, List.map_nil, List.sum_cons, List.sum_nil] at hs
  simp only [logsPairs, SERVICES_enum, List.flatMap_cons, List.flatMap_nil, List.length_append,
    List.length_map, List.length_range, List.length_nil]
  linarith [hs]

lemma commitsPairs_length (n : ℕ) (o : CommitsOracle) (now : ℚ) :
    (commitsPairs n o now).length = n := by
  have hs := perServiceCount_sum n
  rw [show List.range SERVICES.length = [0, 1, 2, 3, 4, 5] from rfl] at hs
  simp only [List.map_cons, List.map_nil, List.sum_cons, List.sum_nil] at hs
  simp only [commitsPairs, SERVICES_enum, List.flatMap_cons, List.flatMap_nil, List.length_append,
    List.length_map, List.length_range, List.length_nil]
  linarith [hs]

/-- The property claimed for `/logs`: the reported count equals the
request parameter, the response text is the newline join of the sorted
lines, and the sorted pairs are non-decreasing in the timestamps they
were generated with. -/
def logsCountSorted (n : ℕ) (o : LogsOracle) (now : ℚ) : Prop :=
  (get_logs n o now).log_count = n ∧
  List.Sorted (· ≤ ·) ((sortedLogs n o now).map Prod.fst) ∧
  (get_logs n o now).logs = String.intercalate "\n" ((sortedLogs n o now).map Prod.snd)

/-- C4: for every valid `num_logs`, `/logs` reports `log_count = num_logs`
and the newline-joined lines appear in non-decreasing order of their
generation timestamps. -/
theorem get_logs_count_and_sorted (n : ℕ) (o : LogsOracle) (now : ℚ)
    (h1 : 1 ≤ n) (h2 : n ≤ 10000) : logsCountSorted n o now := by
  refine ⟨?_, ?_, rfl⟩
  · show ((sortedLogs n o now).map Prod.snd).length = n
    rw [List.length_map, sortedLogs, List.length_mergeSort, logsPairs_length]
  · have htrans : ∀ a b c : ℚ × String,
        (fun a b : ℚ × String => decide (a.1 ≤ b.1)) a b →
        (fun a b : ℚ × String => decide (a.1 ≤ b.1)) b c →
        (fun a b : ℚ × String => decide (a.1 ≤ b.1)) a c := by
      intro a b c hab hbc
      simp only [decide_eq_true_eq] at *
      exact le_trans hab hbc
    have htotal : ∀ a b : ℚ × String,
        ((fun a b : ℚ × String => decide (a.1 ≤ b.1)) a b ||
         (fun a b : ℚ × String => decide (a.1 ≤ b.1)) b a) := by
      intro a b
      simp only [Bool.or_eq_true, decide_eq_true_eq]
      exact le_total a.1 b.1
    have hs := List.sorted_mergeSort htrans htotal (logsPairs n o now)
    rw [List.Sorted, List.pairwise_map]
    refine hs.imp ?_
    intro a b h
    simpa using h

/-- A concrete oracle for `/logs` witnesses. -/
def logsOracle0 : LogsOracle :=
  { tsDraw := fun _ _ => 0
    lineDraw := fun _ _ =>
      { levelU := 0, msgIdx := 0, replIdx := 0, userDraw := 1000,
        statusDraw := 200, resDraw := 1, memDraw := 64 } }

/-- C4 witness at `n = 6`. -/
theorem get_logs_count_and_sorted_witness :
    1 ≤ 6 ∧ 6 ≤ 10000 ∧ logsCountSorted 6 logsOracle0 0 :=
  ⟨by norm_num, by norm_num,
    get_logs_count_and_sorted 6 logsOracle0 0 (by norm_num) (by norm_num)⟩

/-- The rejection property claimed for out-of-range query parameters:
the endpoint answers with the 422 validation error and produces no
response record at all. -/
def rejectedProp (x y : ℤ) (o : LogsOracle) (oc : CommitsOracle) (now : ℚ) : Prop :=
  logs_endpoint (some x) o now = Except.error 422 ∧
  (∀ r, logs_endpoint (some x) o now ≠ Except.ok r) ∧
  commit_history_endpoint (some y) oc now = Except.error 422 ∧
  (∀ r, commit_history_endpoint (some y) oc now ≠ Except.ok r)

/-- C6: a request with `num_logs` outside `[1, 10000]` (resp.
`num_commits` outside `[1, 1000]`) is rejected with the 422 validation
error and no generation result is produced. -/
theorem out_of_bounds_rejected (x y : ℤ) (o : LogsOracle) (oc : CommitsOracle) (now : ℚ)
    (hx : x < 1 ∨ 10000 < x) (hy : y < 1 ∨ 1000 < y) :
    rejectedProp x y o oc now := by
  have hx' : ¬(1 ≤ x ∧ x ≤ 10000) := by omega
  have hy' : ¬(1 ≤ y ∧ y ≤ 1000) := by omega
  have h1 : logs_endpoint (some x) o now = Except.error 422 := by
    simp only [logs_endpoint, Option.getD_some]
    rw [if_neg hx']
  have h2 : commit_history_endpoint (some y) oc now = Except.error 422 := by
    simp only [commit_history_endpoint, Option.getD_some]
    rw [if_neg hy']
  refine ⟨h1, ?_, h2, ?_⟩
  · intro r hr
    rw [h1] at hr
    exact Except.noConfusion hr
  · intro r hr
    rw [h2] at hr
    exact Except.noConfusion hr

/-- A concrete oracle for `/commit_history` witnesses. -/
def commitsOracle0 : CommitsOracle :=
  { tsDraw := fun _ _ => 0
    commitDraw := fun _ _ =>
      { hashDraw := fun _ => 0, authorIdx := 0, typeIdx := 0, msgIdx := 0,
        filesDraw := 1, insertionsDraw := 5, deletionsDraw := 1 } }

/-- C6 witness at `num_logs = 0` and `num_commits = 1001`. -/
theorem out_of_bounds_rejected_witness :
    ((0 : ℤ) < 1 ∨ 10000 < (0 : ℤ)) ∧ ((1001 : ℤ) < 1 ∨ 1000 < (1001 : ℤ)) ∧
    rejectedProp 0 1001 logsOracle0 commitsOracle0 0 :=
  ⟨Or.inl (by norm_num), Or.inr (by norm_num),
    out_of_bounds_rejected 0 1001 logsOracle0 commitsOracle0 0
      (Or.inl (by norm_num)) (Or.inr (by norm_num))⟩

/-- The property claimed for `/commit_history`: the formatted blocks are
joined in non-increasing (most recent first) order of the timestamps the
commits were generated with. -/
def commitsSortedDesc (n : ℕ) (oc : CommitsOracle) (now : ℚ) : Prop :=
  List.Sorted (· ≥ ·) ((sortedCommits n oc now).map Prod.fst) ∧
  (get_commit_history n oc now).commits =
    String.intercalate "\n" ((sortedCommits n oc now).map (fun p => format_commit p.2))

/-- C8: for every valid `num_commits`, the commit blocks of
`/commit_history` appear in non-increasing order of their generation
timestamps, sorted before formatting and joining with newline. -/
theorem commit_history_sorted_desc (n : ℕ) (oc : CommitsOracle) (now : ℚ)
    (h1 : 1 ≤ n) (h2 : n ≤ 1000) : commitsSortedDesc n oc now := by
  refine ⟨?_, rfl⟩
  have htrans : ∀ a b c : ℚ × Commit,
      (fun a b : ℚ × Commit => decide (b.1 ≤ a.1)) a b →
      (fun a b : ℚ × Commit => decide (b.1 ≤ a.1)) b c →
      (fun a b : ℚ × Commit => decide (b.1 ≤ a.1)) a c := by
    intro a b c hab hbc
    simp only [decide_eq_true_eq] at *
    exact le_trans hbc hab
  have htotal : ∀ a b : ℚ × Commit,
      ((fun a b : ℚ × Commit => decide (b.1 ≤ a.1)) a b ||
       (fun a b : ℚ × Commit => decide (b.1 ≤ a.1)) b a) := by
    intro a b
    simp only [Bool.or_eq_true, decide_eq_true_eq]
    exact le_total b.1 a.1
  have hs := List.sorted_mergeSort htrans htotal (commitsPairs n oc now)
  rw [List.Sorted, List.pairwise_map]
  refine hs.imp ?_
  intro a b h
  simpa using h

/-- C8 witness at `n = 6`. -/
theorem commit_history_sorted_desc_witness :
    1 ≤ 6 ∧ 6 ≤ 1000 ∧ commitsSortedDesc 6 commitsOracle0 0 :=
  ⟨by norm_num, by norm_num,
    commit_history_sorted_desc 6 commitsOracle0 0 (by norm_num) (by norm_num)⟩

/-- The lines of the git-log-style block claimed for one formatted
commit, in order. -/
def commitBlockLines (c : Commit) : List String :=
  ["commit " ++ c.commit_hash,
   "Author: " ++ c.author,
   "Date:   " ++ c.date,
   "Service: " ++ c.service,
   "",
   "    " ++ c.message,
   "",
   "    " ++ toString c.files_changed ++ " files changed, " ++
     toString c.insertions ++ " insertions(+), " ++ toString c.deletions ++ " deletions(-)",
   ""]

lemma format_commit_block (c : Commit) :
    format_commit c = String.intercalate "\n" (commitBlockLines c) := by
  have hext : ∀ s t : String, s.data = t.data → s = t := by
    intro s t h
    cases s
    cases t
    exact congrArg String.mk h
  apply hext
  have hd : ∀ a b : String, (a ++ b).data = a.data ++ b.data := fun _ _ => rfl
  have he : ("" : String).data = ([] : List Char) := rfl
  have hs2 : (" deletions(-)\n" : String).data =
      (" deletions(-)" : String).data ++ ("\n" : String).data := rfl
  simp only [format_commit, commitBlockLines, String.intercalate, String.intercalate.go,
    hd, hs2, he, List.append_assoc, List.append_nil, List.nil_append, List.cons_append]

/-- The textual-contract property claimed for one generated commit: a
7-character lowercase-hex hash, and a formatted block that parses as
exactly the claimed sequence of git-log-style lines. -/
def commitFormatProp (service : String) (ts : ℚ) (d : CommitDraws) : Prop :=
  (generate_commit service ts d).commit_hash.length = 7 ∧
  (∀ ch ∈ (generate_commit service ts d).commit_hash.data, ch ∈ HEX_ALPHABET) ∧
  format_commit (generate_commit service ts d) =
    String.intercalate "\n" (commitBlockLines (generate_commit service ts d))

/-- C9: every generated commit has a hash matching `^[0-9a-f]{7}$` (7
characters, each drawn from the hex alphabet) and is rendered by
`format_commit` as exactly the claimed git-log-style block, verbatim
including spacing. -/
theorem commit_format_and_hash (service : String) (ts : ℚ) (d : CommitDraws)
    (hh : ∀ i, d.hashDraw i < 16) : commitFormatProp service ts d := by
  have hdata : ∀ l : List Char, (String.mk l).data = l := fun _ => rfl
  have hlen : ∀ l : List Char, (String.mk l).length = l.length := fun _ => rfl
  refine ⟨?_, ?_, format_commit_block _⟩
  · simp only [generate_commit]
    rw [hlen]
    simp
  · intro ch hch
    simp only [generate_commit, hdata] at hch
    simp only [List.mem_map, List.mem_range] at hch
    obtain ⟨i, hi, rfl⟩ := hch
    have hlt : d.hashDraw i < HEX_ALPHABET.length := by
      have := hh i
      simpa [HEX_ALPHABET] using this
    rw [List.getD_eq_getElem?_getD, List.getElem?_eq_getElem hlt]
    simp only [Option.getD_some]
    exact List.getElem_mem hlt

/-- A concrete draw record for the C9 witness. -/
def commitDraws0 : CommitDraws :=
  { hashDraw := fun _ => 0, authorIdx := 0, typeIdx := 0, msgIdx := 0,
    filesDraw := 1, insertionsDraw := 5, deletionsDraw := 1 }

/-- C9 witness at a concrete draw record. -/
theorem commit_format_and_hash_witness :
    (∀ i, commitDraws0.hashDraw i < 16) ∧ commitFormatProp "auth-service" 0 commitDraws0 :=
  ⟨fun _ => by norm_num [commitDraws0],
    commit_format_and_hash "auth-service" 0 commitDraws0 (fun _ => by norm_num [commitDraws0])⟩

/-- The window property claimed for generated records: every record in
the response was generated with a timestamp inside the `time_range`
reported in the same response. -/
def withinWindow (n : ℕ) (o : LogsOracle) (m : ℕ) (oc : CommitsOracle) (now : ℚ) : Prop :=
  (∀ p ∈ sortedLogs n o now,
      (get_logs n o now).time_range_start ≤ p.1 ∧ p.1 ≤ (get_logs n o now).time_range_end) ∧
  (∀ p ∈ sortedCommits m oc now,
      (get_commit_history m oc now).time_range_start ≤ p.1 ∧
      p.1 ≤ (get_commit_history m oc now).time_range_end)

/-- C10: with the uniform draws in the ranges `random.uniform`
guarantees, every log timestamp lies in the reported 1-hour window
`[now - 3600, now]` and every commit timestamp lies in the reported
30-day window `[now - 30*24*3600, now]`. -/
theorem timestamps_within_window (n m : ℕ) (o : LogsOracle) (oc : CommitsOracle) (now : ℚ)
    (hlog : ∀ idx i, 0 ≤ o.tsDraw idx i ∧ o.tsDraw idx i ≤ 3600)
    (hcom : ∀ idx i, 0 ≤ oc.tsDraw idx i ∧ oc.tsDraw idx i ≤ 30 * 24 * 3600) :
    withinWindow n o m oc now := by
  constructor
  · intro p hp
    rw [sortedLogs, List.mem_mergeSort] at hp
    simp only [logsPairs, List.mem_flatMap, List.mem_map, List.mem_range] at hp
    obtain ⟨q, hq, i, hi, rfl⟩ := hp
    have h := hlog q.1 i
    show (get_logs n o now).time_range_start ≤ now - 3600 + o.tsDraw q.1 i ∧
        now - 3600 + o.tsDraw q.1 i ≤ (get_logs n o now).time_range_end
    have hst : (get_logs n o now).time_range_start = now - 3600 := rfl
    have hen : (get_logs n o now).time_range_end = now := rfl
    rw [hst, hen]
    constructor <;> linarith [h.1, h.2]
  · intro p hp
    rw [sortedCommits, List.mem_mergeSort] at hp
    simp only [commitsPairs, List.mem_flatMap, List.mem_map, List.mem_range] at hp
    obtain ⟨q, hq, i, hi, rfl⟩ := hp
    have h := hcom q.1 i
    show (get_commit_history m oc now).time_range_start ≤ now - 30 * 24 * 3600 + oc.tsDraw q.1 i ∧
        now - 30 * 24 * 3600 + oc.tsDraw q.1 i ≤ (get_commit_history m oc now).time_range_end
    have hst : (get_commit_history m oc now).time_range_start = now - 30 * 24 * 3600 := rfl
    have hen : (get_commit_history m oc now).time_range_end = now := rfl
    rw [hst, hen]
    constructor <;> linarith [h.1, h.2]

/-- C10 witness at concrete oracles. -/
theorem timestamps_within_window_witness :
    (∀ idx i, 0 ≤ logsOracle0.tsDraw idx i ∧ logsOracle0.tsDraw idx i ≤ 3600) ∧
    (∀ idx i, 0 ≤ commitsOracle0.tsDraw idx i ∧ commitsOracle0.tsDraw idx i ≤ 30 * 24 * 3600) ∧
    withinWindow 1 logsOracle0 1 commitsOracle0 0 :=
  ⟨fun _ _ => ⟨by norm_num [logsOracle0], by norm_num [logsOracle0]⟩,
   fun _ _ => ⟨by norm_num [commitsOracle0], by norm_num [commitsOracle0]⟩,
   timestamps_within_window 1 1 logsOracle0 commitsOracle0 0
     (fun _ _ => ⟨by norm_num [logsOracle0], by norm_num [logsOracle0]⟩)
     (fun _ _ => ⟨by norm_num [commitsOracle0], by norm_num [commitsOracle0]⟩)⟩
